import Mathlib

/-!
Shallow embedding of the SIM900 mainframe driver (`SIM900_api.py`) and
theorems checking the specification's claims against it.

The mutable Python object together with its pyvisa transport is modelled as
an explicit state: the instrument handle is `absent` (simulation mode,
`self.instrument == None`), `opened`, or `closed`; a `log` records each
transport-level action in order; a `replies` queue holds the raw strings the
mock transport will deliver to successive `instrument.read()` calls.
Python exceptions are modelled with `Except`, the error carrying the state
at the raise point.
-/

namespace SIM900Spec

/-- Transport-level effects, recorded in order of occurrence.  Sleep
durations are in milliseconds (the source sleeps 0.3 s and 0.1 s). -/
inductive Action where
  | write (msg : String)
  | read (reply : String)
  | sleep (ms : Nat)
  | close
deriving DecidableEq, Repr

/-- State of the pyvisa handle held in `self.instrument`: `absent` models
`None` (simulation mode), `opened` a live session, and `closed` a session
after `close()` (pyvisa raises InvalidSession on further use). -/
inductive InstrState where
  | absent
  | opened
  | closed
deriving DecidableEq, Repr

/-- Python exceptions the embedded methods can raise. -/
inductive PyError where
  | attributeError
  | valueError
  | indexError
  | invalidSession
  | timeout
deriving DecidableEq, Repr

/-- State of a `SIM900_api` object plus its mock transport. -/
structure SIMState where
  instrument : InstrState
  id : Option String
  log : List Action
  replies : List String
deriving DecidableEq, Repr

/-- Result of an embedded Python method: a value with the updated state, or
a raised exception with the state at the raise point (actions performed
before the exception remain in its log). -/
abbrev PyResult (α : Type) := Except (PyError × SIMState) (α × SIMState)

/-- State in which a call left the object, whether it returned or raised. -/
def resultState {α : Type} : PyResult α → SIMState
  | .ok (_, s) => s
  | .error (_, s) => s

/-- Python `str.strip()`: remove leading and trailing whitespace. -/
def pyStrip (s : String) : String :=
  String.mk (((s.data.dropWhile Char.isWhitespace).reverse.dropWhile
    Char.isWhitespace).reverse)

/-- Python `str.replace(old, new)` for a one-character pattern (the only
form the source uses: commas to spaces). -/
def pyReplaceChar (old new : Char) (s : String) : String :=
  String.mk (s.data.map (fun ch => if ch = old then new else ch))

/-- Python slice `s[n:]` (by code point). -/
def pySliceFrom (n : Nat) (s : String) : String :=
  String.mk (s.data.drop n)

/-- Accumulating decimal value of a digit list. -/
def digitsValAux (acc : Nat) : List Char → Nat
  | [] => acc
  | d :: rest => digitsValAux (acc * 10 + (d.toNat - 48)) rest

/-- Helper for Python `s.split(sep)` over the character list. -/
def splitCharList (sep : Char) : List Char → List (List Char)
  | [] => [[]]
  | ch :: rest =>
    let r := splitCharList sep rest
    if ch = sep then [] :: r
    else
      match r with
      | [] => [[ch]]
      | g :: gs => (ch :: g) :: gs

/-- Python `str.split(sep)` for a one-character separator (the only form
the source uses: commas). -/
def pySplit (sep : Char) (s : String) : List String :=
  (splitCharList sep s.data).map String.mk

/-- Python `int(s)` on a string: strip whitespace, optional sign, then a
nonempty run of decimal digits; anything else raises ValueError, modelled
as `none`.  (Underscore digit separators and non-ASCII digits are not
modelled; no input considered here uses them.) -/
def pyInt (s : String) : Option Int :=
  let t := (pyStrip s).data
  let neg : Bool :=
    match t with
    | c :: _ => c = '-'
    | [] => false
  let core : List Char :=
    match t with
    | c :: rest => if c = '-' || c = '+' then rest else t
    | [] => t
  if !core.isEmpty && core.all Char.isDigit then
    some (if neg then -(digitsValAux 0 core : Int) else (digitsValAux 0 core : Int))
  else none

/-- Single-quote character used by the SNDT command framing. -/
def quoteChar : String := String.singleton (Char.ofNat 39)

/-- Command written by `writePort`: Python `"SNDT %d, '%s'" % (port, message)`. -/
def sndtCmd (port : Int) (message : String) : String :=
  "SNDT " ++ toString port ++ ", " ++ quoteChar ++ message ++ quoteChar

/-- Command written by `scanPorts` (no space after the comma in the
source): Python `"SNDT %d,'*IDN?'" % i`. -/
def scanCmd (port : Int) : String :=
  "SNDT " ++ toString port ++ "," ++ quoteChar ++ "*IDN?" ++ quoteChar

/-- Python `"NINP? %d" % port`. -/
def ninpCmd (port : Int) : String := "NINP? " ++ toString port

/-- Python `"RAWN? %d,%d" % (port, nbytes)`. -/
def rawnCmd (port : Int) (nbytes : Int) : String :=
  "RAWN? " ++ toString port ++ "," ++ toString nbytes

/-- Python `"FLSI %d" % port`. -/
def flsiCmd (port : Int) : String := "FLSI " ++ toString port

/-- Module-level constant `WRITE_DELAY = .3` (seconds), in milliseconds. -/
def WRITE_DELAY : Nat := 300

/-- Module-level flag `_AUTO_FLUSH = True`. -/
def AUTO_FLUSH : Bool := true

/-- Effect of `_time.sleep` of the given duration. -/
def pySleep (ms : Nat) (s : SIMState) : SIMState :=
  { s with log := s.log ++ [.sleep ms] }

/-- Direct `self.instrument.write(msg)` with no None-guard, as used by
`writePort`, `flush` and `scanPorts`: raises AttributeError in simulation
mode and InvalidSession on a closed session. -/
def rawWrite (msg : String) (s : SIMState) : PyResult Unit :=
  match s.instrument with
  | .absent => .error (.attributeError, s)
  | .closed => .error (.invalidSession, s)
  | .opened => .ok ((), { s with log := s.log ++ [.write msg] })

/-- Method `write(self, message)`: guarded by the None-check; in simulation
mode it performs no transport action and returns `None`. -/
def SIM900_api.write (message : String) (s : SIMState) : PyResult (Option Unit) :=
  match s.instrument with
  | .absent => .ok (none, s)
  | .closed => .error (.invalidSession, s)
  | .opened => .ok (some (), { s with log := s.log ++ [.write message] })

/-- Method `read(self)`: returns `''` (stripped) in simulation mode;
otherwise delivers the next queued transport reply, stripped; an exhausted
queue models a pyvisa read timeout. -/
def SIM900_api.read (s : SIMState) : PyResult String :=
  match s.instrument with
  | .absent => .ok (pyStrip "", s)
  | .closed => .error (.invalidSession, s)
  | .opened =>
    match s.replies with
    | [] => .error (.timeout, s)
    | r :: rest => .ok (pyStrip r, { s with log := s.log ++ [.read r], replies := rest })

/-- Method `query(self, message)`: write, sleep `WRITE_DELAY`, read, strip. -/
def SIM900_api.query (message : String) (s : SIMState) : PyResult String :=
  match SIM900_api.write message s with
  | .error e => .error e
  | .ok (_, s1) =>
    match SIM900_api.read (pySleep WRITE_DELAY s1) with
    | .error e => .error e
    | .ok (r, s2) => .ok (pyStrip r, s2)

/-- Method `writePort(self, port, message)`: an unguarded
`self.instrument.write` of the SNDT frame. -/
def SIM900_api.writePort (port : Int) (message : String) (s : SIMState) : PyResult Unit :=
  rawWrite (sndtCmd port message) s

/-- Method `inWaiting(self, port)`: query `NINP? <port>` and parse the
reply with `int(...)`. -/
def SIM900_api.inWaiting (port : Int) (s : SIMState) : PyResult Int :=
  match SIM900_api.query (ninpCmd port) s with
  | .error e => .error e
  | .ok (n, s1) =>
    match pyInt n with
    | some k => .ok (k, s1)
    | none => .error (.valueError, s1)

/-- Method `readPort(self, port, nbytes=None)`: discover the byte count via
`inWaiting` when it is not supplied, request that many bytes with
`RAWN? <port>,<nbytes>`, sleep, then read the reply. -/
def SIM900_api.readPort (port : Int) (nbytes : Option Int) (s : SIMState) : PyResult String :=
  let counted : PyResult Int :=
    match nbytes with
    | none => SIM900_api.inWaiting port s
    | some n => .ok (n, s)
  match counted with
  | .error e => .error e
  | .ok (nb, s1) =>
    match rawWrite (rawnCmd port nb) s1 with
    | .error e => .error e
    | .ok (_, s2) => SIM900_api.read (pySleep WRITE_DELAY s2)

/-- Method `flush(self, port=None)`: an unguarded `self.instrument.write`
of `FLSI` or `FLSI <port>`. -/
def SIM900_api.flush (port : Option Int) (s : SIMState) : PyResult Unit :=
  match port with
  | none => rawWrite "FLSI" s
  | some p => rawWrite (flsiCmd p) s

/-- Method `queryPort(self, port, message, nbytes=None)`: flush per the
`_AUTO_FLUSH` policy, write the message to the port, sleep, then
`readPort(port)`.  Note the source passes no byte count to `readPort`, so
the `nbytes` parameter is unused. -/
def SIM900_api.queryPort (port : Int) (message : String) (nbytes : Option Int)
    (s : SIMState) : PyResult String :=
  let flushed : PyResult Unit :=
    if AUTO_FLUSH then SIM900_api.flush (some port) s
    else
      match SIM900_api.inWaiting port s with
      | .error e => .error e
      | .ok (j, sa) => if j ≠ 0 then SIM900_api.flush (some port) sa else .ok ((), sa)
  match flushed with
  | .error e => .error e
  | .ok (_, s1) =>
    match SIM900_api.writePort port message s1 with
    | .error e => .error e
    | .ok (_, s2) => SIM900_api.readPort port none (pySleep WRITE_DELAY s2)

/-- One iteration of the `scanPorts` loop at port `i`: unguarded SNDT of
`*IDN?`, sleep 0.1 s, `inWaiting`; when nonzero, `query` the RAWN? request
and take field 1 of the comma-split reply (Python `[1]`, raising IndexError
when the field is missing). -/
def SIM900_api.scanStep (i : Int) (s : SIMState) : PyResult (Option String) :=
  match rawWrite (scanCmd i) s with
  | .error e => .error e
  | .ok (_, s1) =>
    match SIM900_api.inWaiting i (pySleep 100 s1) with
    | .error e => .error e
    | .ok (j, s2) =>
      if j ≠ 0 then
        match SIM900_api.query (rawnCmd i j) s2 with
        | .error e => .error e
        | .ok (r, s3) =>
          match (pySplit ',' r).get? 1 with
          | some ident => .ok (some ident, s3)
          | none => .error (.indexError, s3)
      else .ok (none, s2)

/-- The `for i in range(1,9)` loop of `scanPorts`, recursing over the
remaining port numbers and collecting the entries in order. -/
def SIM900_api.scanAux : List Int → SIMState → PyResult (List (Option String))
  | [], s => .ok ([], s)
  | i :: rest, s =>
    match SIM900_api.scanStep i s with
    | .error e => .error e
    | .ok (x, s1) =>
      match SIM900_api.scanAux rest s1 with
      | .error e => .error e
      | .ok (xs, s2) => .ok (x :: xs, s2)

/-- Method `scanPorts(self)`: probe ports 1 through 8, once each, in
order. -/
def SIM900_api.scanPorts (s : SIMState) : PyResult (List (Option String)) :=
  SIM900_api.scanAux [1, 2, 3, 4, 5, 6, 7, 8] s

/-- Method `close(self)`: closes the pyvisa session when present.  The
source does not set `self.instrument = None`, so the handle remains and
later operations hit the closed session. -/
def SIM900_api.close (s : SIMState) : PyResult Unit :=
  match s.instrument with
  | .absent => .ok ((), s)
  | .opened => .ok ((), { s with instrument := .closed, log := s.log ++ [.close] })
  | .closed => .error (.invalidSession, s)

/-- Outcome of `resource_manager.open_resource(name)`: either it raises, or
it yields a live session whose reads will deliver `replies`. -/
inductive OpenOutcome where
  | fail
  | success (replies : List String)
deriving DecidableEq, Repr

/-- Constructor `SIM900_api.__init__`: try to open; on success write `FLSH`
and query `*IDN?` for the identity; if that probe raises, close the session
and fall back to simulation mode (instrument None, id None); if the open
itself raises, likewise fall back.  The constructor never propagates either
error. -/
def SIM900_api.init (o : OpenOutcome) : SIMState :=
  match o with
  | .fail => { instrument := .absent, id := none, log := [], replies := [] }
  | .success replies =>
    let s0 : SIMState := { instrument := .opened, id := none, log := [], replies := replies }
    let probe : PyResult String :=
      match rawWrite "FLSH" s0 with
      | .error e => .error e
      | .ok (_, s1) => SIM900_api.query "*IDN?" s1
    match probe with
    | .ok (r, s2) => { s2 with id := some (pyReplaceChar ',' ' ' r) }
    | .error (_, sE) => { sE with instrument := .absent, id := none, log := sE.log ++ [.close] }

/-- Inner class `SIM_Module`: a handle bound to one port with a cached id. -/
structure SIM_Module where
  port : Int
  id : String
deriving DecidableEq, Repr

/-- Constructor `SIM_Module.__init__`: `self.query("*IDN?")` (which
delegates to `queryPort(self.port, "*IDN?")` with the byte count dropped),
then cache `[33:].replace(",", " ")` of the reply as the id.  The slice is
unchecked: a reply shorter than 33 characters yields an empty id. -/
def SIM_Module.init (port : Int) (s : SIMState) : PyResult SIM_Module :=
  match SIM900_api.queryPort port "*IDN?" none s with
  | .error e => .error e
  | .ok (r, s1) =>
    .ok ({ port := port, id := pyReplaceChar ',' ' ' (pySliceFrom 33 r) }, s1)

/-- Method `SIM_Module.write(self, msg)`: delegates to `writePort`. -/
def SIM_Module.write (m : SIM_Module) (msg : String) (s : SIMState) : PyResult Unit :=
  SIM900_api.writePort m.port msg s

/-- Method `SIM_Module.read(self, nbytes=None)`: delegates to `readPort`. -/
def SIM_Module.read (m : SIM_Module) (nbytes : Option Int) (s : SIMState) : PyResult String :=
  SIM900_api.readPort m.port nbytes s

/-- Method `SIM_Module.query(self, msg, nbytes=None)`: delegates to
`queryPort(self.port, msg)` — the byte count is dropped by the source. -/
def SIM_Module.query (m : SIM_Module) (msg : String) (nbytes : Option Int)
    (s : SIMState) : PyResult String :=
  SIM900_api.queryPort m.port msg none s

/-- Transport actions performed by one successful `queryPort p msg` call
when the count reply is `c` (parsing to `k`) and the payload reply is `r`. -/
def queryPortTrace (p : Int) (msg : String) (c r : String) (k : Int) : List Action :=
  [.write (flsiCmd p), .write (sndtCmd p msg), .sleep WRITE_DELAY,
   .write (ninpCmd p), .sleep WRITE_DELAY, .read c,
   .write (rawnCmd p k), .sleep WRITE_DELAY, .read r]

/-- Behaviour of the mock mainframe at one port during a scan: either the
port is empty (its `NINP?` reply is a zero count) or a module is present
(its `NINP?` reply parses to a nonzero count and the subsequent `RAWN?`
request is answered with `raw`). -/
inductive PortDesc where
  | empty (c : String)
  | present (c : String) (raw : String)
deriving DecidableEq, Repr

/-- Transport replies the mock delivers while one port is probed. -/
def PortDesc.replies : PortDesc → List String
  | .empty c => [c]
  | .present c raw => [c, raw]

/-- Entry `scanPorts` records for the port: `none` for an empty port,
field 1 of the comma-split reply for a present module. -/
def PortDesc.entry : PortDesc → Option String
  | .empty _ => none
  | .present _ raw => some (((pySplit ',' raw).get? 1).getD "")

/-- Transport actions of one iteration of the scan loop at port `i`. -/
def PortDesc.trace (i : Int) : PortDesc → List Action
  | .empty c =>
      [.write (scanCmd i), .sleep 100, .write (ninpCmd i), .sleep WRITE_DELAY, .read c]
  | .present c raw =>
      [.write (scanCmd i), .sleep 100, .write (ninpCmd i), .sleep WRITE_DELAY, .read c,
       .write (rawnCmd i ((pyInt c).getD 0)), .sleep WRITE_DELAY, .read raw]

/-- Well-formedness of a mock port description: count replies are clean
integer strings (zero for an empty port, nonzero for a present one), and a
present port's raw reply is clean and contains a comma, so that field 1 of
the split exists. -/
def PortDesc.Valid : PortDesc → Prop
  | .empty c => pyStrip c = c ∧ pyInt c = some 0
  | .present c raw => pyStrip c = c ∧ pyInt c = some ((pyInt c).getD 0) ∧
      (pyInt c).getD 0 ≠ 0 ∧ pyStrip raw = raw ∧ 1 < (pySplit ',' raw).length

instance (d : PortDesc) : Decidable d.Valid :=
  match d with
  | .empty _ => inferInstanceAs (Decidable (_ ∧ _))
  | .present _ _ => inferInstanceAs (Decidable (_ ∧ _))

/-- Mock mainframe of the specification's scan scenario: modules at ports
1 and 7, all other ports empty. -/
def scanExample : List PortDesc :=
  [.present "40" "xx,SIM922,yy", .empty "0", .empty "0", .empty "0",
   .empty "0", .empty "0", .present "45" "aa,SIM970", .empty "0"]

/-- Run of `queryPort` with an automatic flush, on an open connection whose
transport queue holds a clean integer count reply followed by the payload:
it succeeds with the stripped payload and appends exactly
`queryPortTrace`. -/
theorem queryPort_run (p : Int) (msg : String) (idv : Option String) (log : List Action)
    (c r : String) (rest : List String) (k : Int)
    (hc : pyStrip c = c) (hk : pyInt c = some k) :
    SIM900_api.queryPort p msg none ⟨.opened, idv, log, c :: r :: rest⟩ =
      .ok (pyStrip r, ⟨.opened, idv, log ++ queryPortTrace p msg c r k, rest⟩) := by
  simp only [SIM900_api.queryPort, SIM900_api.flush, rawWrite, AUTO_FLUSH, if_true,
    SIM900_api.writePort, SIM900_api.readPort, SIM900_api.inWaiting, SIM900_api.query,
    SIM900_api.write, SIM900_api.read, pySleep, queryPortTrace, hc, hk,
    List.append_assoc, List.cons_append, List.nil_append]

/-- Data of an append whose left part has a known head character. -/
theorem append_data_head {a : String} {c : Char} {t : List Char} (h : a.data = c :: t)
    (b : String) : (a ++ b).data = c :: (t ++ b.data) := by
  rw [String.data_append, h]; rfl

/-- Strings whose data start with different characters are different. -/
theorem string_head_ne {a b : String} {c d : Char} {ta tb : List Char}
    (ha : a.data = c :: ta) (hb : b.data = d :: tb) (hcd : c ≠ d) : a ≠ b := by
  intro h
  rw [h, hb] at ha
  exact hcd (List.cons.inj ha).1.symm

/-- Character data of a `FLSI` command. -/
theorem flsiCmd_data (p : Int) :
    (flsiCmd p).data = 'F' :: ("LSI ".data ++ (toString p).data) :=
  append_data_head rfl _

/-- Character data of an `SNDT` command starts with S. -/
theorem sndtCmd_data (p : Int) (msg : String) :
    ∃ t, (sndtCmd p msg).data = 'S' :: t :=
  ⟨_, append_data_head (append_data_head (append_data_head (append_data_head
      (append_data_head (rfl : ("SNDT " : String).data = 'S' :: "NDT ".data)
        (toString p)) ", ") quoteChar) msg) quoteChar⟩

/-- Character data of a `NINP?` command. -/
theorem ninpCmd_data (p : Int) :
    (ninpCmd p).data = 'N' :: ("INP? ".data ++ (toString p).data) :=
  append_data_head rfl _

/-- Character data of a `RAWN?` command starts with R. -/
theorem rawnCmd_data (p n : Int) :
    ∃ t, (rawnCmd p n).data = 'R' :: t :=
  ⟨_, append_data_head (append_data_head (append_data_head
      (rfl : ("RAWN? " : String).data = 'R' :: "AWN? ".data) (toString p)) ",")
      (toString n)⟩

/-- A flush command is never a send command. -/
theorem flsi_ne_sndt (p q : Int) (msg : String) : flsiCmd p ≠ sndtCmd q msg := by
  obtain ⟨t, ht⟩ := sndtCmd_data q msg
  exact string_head_ne (flsiCmd_data p) ht (by decide)

/-- A flush command is never a byte-count query. -/
theorem flsi_ne_ninp (p q : Int) : flsiCmd p ≠ ninpCmd q :=
  string_head_ne (flsiCmd_data p) (ninpCmd_data q) (by decide)

/-- A flush command is never a raw-read request. -/
theorem flsi_ne_rawn (p q n : Int) : flsiCmd p ≠ rawnCmd q n := by
  obtain ⟨t, ht⟩ := rawnCmd_data q n
  exact string_head_ne (flsiCmd_data p) ht (by decide)

/-- A send command is never a byte-count query. -/
theorem sndt_ne_ninp (p q : Int) (msg : String) : sndtCmd p msg ≠ ninpCmd q := by
  obtain ⟨t, ht⟩ := sndtCmd_data p msg
  exact string_head_ne ht (ninpCmd_data q) (by decide)

/-- A send command is never a raw-read request. -/
theorem sndt_ne_rawn (p q n : Int) (msg : String) : sndtCmd p msg ≠ rawnCmd q n := by
  obtain ⟨t, ht⟩ := sndtCmd_data p msg
  obtain ⟨u, hu⟩ := rawnCmd_data q n
  exact string_head_ne ht hu (by decide)

/-- A byte-count query is never a raw-read request. -/
theorem ninp_ne_rawn (p q n : Int) : ninpCmd p ≠ rawnCmd q n := by
  obtain ⟨u, hu⟩ := rawnCmd_data q n
  exact string_head_ne (ninpCmd_data p) hu (by decide)

/-- One scan-loop iteration at an empty port: the probe is sent, the count
reply parses to zero, and the entry is the empty marker. -/
theorem scanStep_empty (i : Int) (idv : Option String) (log : List Action)
    (c : String) (qrest : List String) (hc : pyStrip c = c) (h0 : pyInt c = some 0) :
    SIM900_api.scanStep i ⟨.opened, idv, log, c :: qrest⟩ =
      .ok (none, ⟨.opened, idv, log ++ PortDesc.trace i (.empty c), qrest⟩) := by
  simp [SIM900_api.scanStep, rawWrite, SIM900_api.inWaiting, SIM900_api.query,
    SIM900_api.write, SIM900_api.read, pySleep, hc, h0, PortDesc.trace]

/-- One scan-loop iteration at a present port: the probe is sent, the count
reply parses to a nonzero count, the raw reply is fetched and field 1 of
its comma-split form is the entry. -/
theorem scanStep_present (i : Int) (idv : Option String) (log : List Action)
    (c raw : String) (qrest : List String) (k : Int) (x : String)
    (hc : pyStrip c = c) (hk : pyInt c = some k) (hk0 : k ≠ 0)
    (hraw : pyStrip raw = raw) (hx : (pySplit ',' raw).get? 1 = some x) :
    SIM900_api.scanStep i ⟨.opened, idv, log, c :: raw :: qrest⟩ =
      .ok (some x, ⟨.opened, idv, log ++ PortDesc.trace i (.present c raw), qrest⟩) := by
  simp only [SIM900_api.scanStep, rawWrite, SIM900_api.inWaiting, SIM900_api.query,
    SIM900_api.write, SIM900_api.read, pySleep, hc, hk, PortDesc.trace,
    Option.getD_some, List.append_assoc, List.cons_append, List.nil_append]
  rw [if_pos hk0]
  simp only [hraw, hx, List.append_assoc, List.cons_append, List.nil_append]

/-- The scan loop over any list of ports, against a mock described by a
matching list of valid port descriptions, returns exactly the described
entries and performs exactly the per-port probe traces, in order. -/
theorem scanAux_spec (ds : List PortDesc) :
    ∀ (ports : List Int) (idv : Option String) (log : List Action) (rest : List String),
      ports.length = ds.length → (∀ d ∈ ds, d.Valid) →
      SIM900_api.scanAux ports
          ⟨.opened, idv, log, (ds.map PortDesc.replies).flatten ++ rest⟩ =
        .ok (ds.map PortDesc.entry,
          ⟨.opened, idv, log ++ (List.zipWith PortDesc.trace ports ds).flatten, rest⟩) := by
  induction ds with
  | nil =>
    intro ports idv log rest hlen hv
    have hp : ports = [] := List.eq_nil_of_length_eq_zero (by simpa using hlen)
    subst hp
    simp [SIM900_api.scanAux]
  | cons d ds ih =>
    intro ports idv log rest hlen hv
    obtain ⟨i, ports', rfl⟩ : ∃ i ports', ports = i :: ports' := by
      cases ports with
      | nil => simp at hlen
      | cons a b => exact ⟨a, b, rfl⟩
    have hd : d.Valid := hv d (List.mem_cons_self d ds)
    have hds : ∀ x ∈ ds, x.Valid := fun x hx => hv x (List.mem_cons_of_mem d hx)
    have hlen' : ports'.length = ds.length := by simpa using hlen
    cases d with
    | empty c =>
      obtain ⟨hc, h0⟩ := hd
      have hstep := scanStep_empty i idv log c
        ((ds.map PortDesc.replies).flatten ++ rest) hc h0
      have hrec := ih ports' idv (log ++ PortDesc.trace i (.empty c)) rest hlen' hds
      simp only [SIM900_api.scanAux, List.map_cons, List.flatten_cons, PortDesc.replies,
        List.cons_append, List.nil_append, List.append_assoc] at hstep hrec ⊢
      rw [hstep]
      simp only [hrec]
      simp [List.zipWith, PortDesc.entry, List.append_assoc]
    | present c raw =>
      obtain ⟨hc, hks, hk0, hraw, hsplit⟩ := hd
      cases hx : (pySplit ',' raw).get? 1 with
      | none =>
        rw [List.get?_eq_none] at hx
        omega
      | some x =>
        have hstep := scanStep_present i idv log c raw
          ((ds.map PortDesc.replies).flatten ++ rest) ((pyInt c).getD 0) x hc hks hk0 hraw hx
        have hrec := ih ports' idv (log ++ PortDesc.trace i (.present c raw)) rest hlen' hds
        simp only [SIM900_api.scanAux, List.map_cons, List.flatten_cons, PortDesc.replies,
          List.cons_append, List.nil_append, List.append_assoc] at hstep hrec ⊢
        have hx2 : (pySplit ',' raw)[1]? = some x := by simpa using hx
        rw [hstep]
        simp only [hrec]
        simp [List.zipWith, PortDesc.entry, hx, hx2, List.append_assoc]

/-- C1: for every port p and message msg, `queryPort(p, msg)` performs
exactly one flush of port p, then exactly one write of msg to port p, then
the fixed settle delay, then exactly one port read (the `readPort` call,
which itself issues the byte-count query and the single `RAWN?` request),
in that order, and touches no port other than p: the complete transport
trace of the call is `queryPortTrace`, it contains exactly one `FLSI p`
write, one `SNDT p` write of msg and one `RAWN? p` request, and every
action in it is a port-p command, a settle sleep or a transport read. -/
theorem queryPort_flush_write_settle_read (p : Int) (msg : String)
    (idv : Option String) (log : List Action) (c r : String) (rest : List String) (k : Int)
    (hc : pyStrip c = c) (hk : pyInt c = some k) :
    SIM900_api.queryPort p msg none ⟨.opened, idv, log, c :: r :: rest⟩ =
      .ok (pyStrip r, ⟨.opened, idv, log ++ queryPortTrace p msg c r k, rest⟩) ∧
    (queryPortTrace p msg c r k).count (Action.write (flsiCmd p)) = 1 ∧
    (queryPortTrace p msg c r k).count (Action.write (sndtCmd p msg)) = 1 ∧
    (queryPortTrace p msg c r k).count (Action.write (rawnCmd p k)) = 1 ∧
    ∀ a ∈ queryPortTrace p msg c r k,
      a = .write (flsiCmd p) ∨ a = .write (sndtCmd p msg) ∨ a = .write (ninpCmd p) ∨
      (∃ n, a = .write (rawnCmd p n)) ∨ a = .sleep WRITE_DELAY ∨ (∃ x, a = .read x) := by
  refine ⟨queryPort_run p msg idv log c r rest k hc hk, ?_, ?_, ?_, ?_⟩
  · simp [queryPortTrace, List.count_cons, (flsi_ne_sndt p p msg).symm,
      (flsi_ne_ninp p p).symm, (flsi_ne_rawn p p k).symm]
  · simp [queryPortTrace, List.count_cons, flsi_ne_sndt p p msg,
      (sndt_ne_ninp p p msg).symm, (sndt_ne_rawn p p k msg).symm]
  · simp [queryPortTrace, List.count_cons, flsi_ne_rawn p p k,
      sndt_ne_rawn p p k msg, ninp_ne_rawn p p k]
  · intro a ha
    simp only [queryPortTrace, List.mem_cons, List.not_mem_nil, or_false] at ha
    rcases ha with h | h | h | h | h | h | h | h | h <;> subst h <;> simp

/-- Witness for C1 at port 2, message `VOLT? 0`, count reply 5, payload
reply 1.23. -/
theorem queryPort_flush_write_settle_read_witness :
    pyStrip "5" = "5" ∧ pyInt "5" = some 5 ∧
    (SIM900_api.queryPort 2 "VOLT? 0" none ⟨.opened, none, [], ["5", "1.23"]⟩ =
      .ok (pyStrip "1.23",
        ⟨.opened, none, [] ++ queryPortTrace 2 "VOLT? 0" "5" "1.23" 5, []⟩) ∧
    (queryPortTrace 2 "VOLT? 0" "5" "1.23" 5).count (Action.write (flsiCmd 2)) = 1 ∧
    (queryPortTrace 2 "VOLT? 0" "5" "1.23" 5).count (Action.write (sndtCmd 2 "VOLT? 0")) = 1 ∧
    (queryPortTrace 2 "VOLT? 0" "5" "1.23" 5).count (Action.write (rawnCmd 2 5)) = 1 ∧
    ∀ a ∈ queryPortTrace 2 "VOLT? 0" "5" "1.23" 5,
      a = .write (flsiCmd 2) ∨ a = .write (sndtCmd 2 "VOLT? 0") ∨ a = .write (ninpCmd 2) ∨
      (∃ n, a = .write (rawnCmd 2 n)) ∨ a = .sleep WRITE_DELAY ∨ (∃ x, a = .read x)) :=
  ⟨rfl, rfl, queryPort_flush_write_settle_read 2 "VOLT? 0" none [] "5" "1.23" [] 5 rfl rfl⟩

/-- C2: contrary to the claim, in simulation mode (open failed) only the
guarded `write`, `read` and `query` return neutral values; every
port-addressed operation raises: `inWaiting` raises ValueError parsing the
empty simulated reply, and `flush`, `writePort`, `queryPort`,
`readPort(nbytes)` and `scanPorts` raise AttributeError accessing the
absent instrument handle, with `readPort()` raising ValueError via its
`inWaiting` call. -/
theorem simulation_port_ops_raise :
    SIM900_api.write "*IDN?" (SIM900_api.init .fail) = .ok (none, SIM900_api.init .fail) ∧
    SIM900_api.read (SIM900_api.init .fail) = .ok ("", SIM900_api.init .fail) ∧
    SIM900_api.query "*IDN?" (SIM900_api.init .fail) =
      .ok ("", ⟨.absent, none, [.sleep WRITE_DELAY], []⟩) ∧
    SIM900_api.inWaiting 3 (SIM900_api.init .fail) =
      .error (.valueError, ⟨.absent, none, [.sleep WRITE_DELAY], []⟩) ∧
    SIM900_api.flush (some 3) (SIM900_api.init .fail) =
      .error (.attributeError, SIM900_api.init .fail) ∧
    SIM900_api.writePort 3 "*IDN?" (SIM900_api.init .fail) =
      .error (.attributeError, SIM900_api.init .fail) ∧
    SIM900_api.queryPort 3 "*IDN?" none (SIM900_api.init .fail) =
      .error (.attributeError, SIM900_api.init .fail) ∧
    SIM900_api.readPort 3 none (SIM900_api.init .fail) =
      .error (.valueError, ⟨.absent, none, [.sleep WRITE_DELAY], []⟩) ∧
    SIM900_api.readPort 3 (some 4) (SIM900_api.init .fail) =
      .error (.attributeError, SIM900_api.init .fail) ∧
    SIM900_api.scanPorts (SIM900_api.init .fail) =
      .error (.attributeError, SIM900_api.init .fail) :=
  ⟨rfl, rfl, rfl, rfl, rfl, rfl, rfl, rfl, rfl, rfl⟩

/-- C3: `inWaiting(p)` issues exactly the byte-count query `NINP? p` (one
write, the settle sleep, one transport read), parses the reply with
`int(...)` and returns the parsed count; when the reply is not a valid
integer it raises the numeric-parse error (ValueError, the spec's
ProtocolError); and no `RAWN?` port-read request occurs in its trace. -/
theorem inWaiting_parses_count (p : Int) (idv : Option String) (log : List Action)
    (c : String) (rest : List String) (hc : pyStrip c = c) :
    (∀ k : Int, pyInt c = some k →
      SIM900_api.inWaiting p ⟨.opened, idv, log, c :: rest⟩ =
        .ok (k, ⟨.opened, idv,
          log ++ [.write (ninpCmd p), .sleep WRITE_DELAY, .read c], rest⟩)) ∧
    (pyInt c = none →
      SIM900_api.inWaiting p ⟨.opened, idv, log, c :: rest⟩ =
        .error (.valueError, ⟨.opened, idv,
          log ++ [.write (ninpCmd p), .sleep WRITE_DELAY, .read c], rest⟩)) ∧
    (∀ (q n : Int), Action.write (rawnCmd q n) ∉
        [Action.write (ninpCmd p), Action.sleep WRITE_DELAY, Action.read c]) := by
  refine ⟨?_, ?_, ?_⟩
  · intro k hk
    simp only [SIM900_api.inWaiting, SIM900_api.query, SIM900_api.write, SIM900_api.read,
      pySleep, hc, hk, List.append_assoc, List.cons_append, List.nil_append]
  · intro hk
    simp only [SIM900_api.inWaiting, SIM900_api.query, SIM900_api.write, SIM900_api.read,
      pySleep, hc, hk, List.append_assoc, List.cons_append, List.nil_append]
  · intro q n
    simp [(ninp_ne_rawn p q n).symm]

/-- Witness for C3: the mock replies 0 to `NINP? 3` and `inWaiting(3)`
returns the integer 0 without a port read. -/
theorem inWaiting_parses_count_witness :
    pyStrip "0" = "0" ∧
    SIM900_api.inWaiting 3 ⟨.opened, none, [], ["0"]⟩ =
      .ok (0, ⟨.opened, none,
        [] ++ [.write (ninpCmd 3), .sleep WRITE_DELAY, .read "0"], []⟩) :=
  ⟨rfl, (inWaiting_parses_count 3 none [] "0" [] rfl).1 0 rfl⟩

/-- C4 counterexample: out-of-range ports are not rejected before
transmission: `writePort(0, "TEST")` transmits `SNDT 0, 'TEST'` and
`inWaiting(9)` transmits `NINP? 9` and completes normally. -/
theorem writePort_port0_transmits :
    SIM900_api.writePort 0 "TEST" ⟨.opened, none, [], []⟩ =
      .ok ((), ⟨.opened, none, [.write (sndtCmd 0 "TEST")], []⟩) ∧
    SIM900_api.inWaiting 9 ⟨.opened, none, [], ["0"]⟩ =
      .ok (0, ⟨.opened, none, [.write (ninpCmd 9), .sleep WRITE_DELAY, .read "0"], []⟩) :=
  ⟨rfl, rfl⟩

/-- C4 amended: the core performs no port-range validation at all: for
every integer port, in range or not, `writePort` transmits the SNDT frame
and `flush` transmits the FLSI command unchanged. -/
theorem no_port_validation (p : Int) (msg : String) (idv : Option String)
    (log : List Action) (replies : List String) :
    SIM900_api.writePort p msg ⟨.opened, idv, log, replies⟩ =
      .ok ((), ⟨.opened, idv, log ++ [.write (sndtCmd p msg)], replies⟩) ∧
    SIM900_api.flush (some p) ⟨.opened, idv, log, replies⟩ =
      .ok ((), ⟨.opened, idv, log ++ [.write (flsiCmd p)], replies⟩) :=
  ⟨rfl, rfl⟩

/-- C5: `readPort(p, n)` requests exactly n bytes — its only transmitted
command is `RAWN? p,n` — sleeps the settle delay, and returns the
transport's reply for that request stripped of surrounding whitespace (in
particular, a clean reply is returned with its length unchanged); when
`nbytes` is omitted, it first issues `inWaiting(p)` and then requests
exactly the discovered count. -/
theorem readPort_requests_exact (p : Int) (idv : Option String) (log : List Action) :
    (∀ (n : Int) (r : String) (rest : List String),
      SIM900_api.readPort p (some n) ⟨.opened, idv, log, r :: rest⟩ =
        .ok (pyStrip r, ⟨.opened, idv,
          log ++ [.write (rawnCmd p n), .sleep WRITE_DELAY, .read r], rest⟩)) ∧
    (∀ (c r : String) (rest : List String) (k : Int), pyStrip c = c → pyInt c = some k →
      SIM900_api.readPort p none ⟨.opened, idv, log, c :: r :: rest⟩ =
        .ok (pyStrip r, ⟨.opened, idv,
          log ++ [.write (ninpCmd p), .sleep WRITE_DELAY, .read c,
            .write (rawnCmd p k), .sleep WRITE_DELAY, .read r], rest⟩)) ∧
    (∀ r : String, pyStrip r = r → (pyStrip r).length = r.length) := by
  refine ⟨?_, ?_, ?_⟩
  · intro n r rest
    simp only [SIM900_api.readPort, rawWrite, SIM900_api.read, pySleep,
      List.append_assoc, List.cons_append, List.nil_append]
  · intro c r rest k hc hk
    simp only [SIM900_api.readPort, SIM900_api.inWaiting, SIM900_api.query,
      SIM900_api.write, SIM900_api.read, rawWrite, pySleep, hc, hk,
      List.append_assoc, List.cons_append, List.nil_append]
  · intro r hr
    rw [hr]

/-- Witness for C5: an explicit count of 5 requests `RAWN? 2,5`, and the
omitted-count form discovers 12 via `NINP? 2` and requests `RAWN? 2,12`. -/
theorem readPort_requests_exact_witness :
    SIM900_api.readPort 2 (some 5) ⟨.opened, none, [], ["1.234"]⟩ =
      .ok (pyStrip "1.234", ⟨.opened, none,
        [] ++ [.write (rawnCmd 2 5), .sleep WRITE_DELAY, .read "1.234"], []⟩) ∧
    pyStrip "12" = "12" ∧ pyInt "12" = some 12 ∧
    SIM900_api.readPort 2 none ⟨.opened, none, [], ["12", "hello"]⟩ =
      .ok (pyStrip "hello", ⟨.opened, none,
        [] ++ [.write (ninpCmd 2), .sleep WRITE_DELAY, .read "12",
          .write (rawnCmd 2 12), .sleep WRITE_DELAY, .read "hello"], []⟩) :=
  ⟨(readPort_requests_exact 2 none []).1 5 "1.234" [], rfl, rfl,
   (readPort_requests_exact 2 none []).2.1 "12" "hello" [] 12 rfl rfl⟩

/-- C6 counterexample: binding a module handle does not fail on empty
identification data: with the identification query answered by an empty
reply (count 0, empty payload), `SIM_Module.__init__` completes normally
and caches the empty identity — no bind error is raised. -/
theorem module_bind_empty_reply_succeeds :
    SIM_Module.init 1 ⟨.opened, none, [], ["0", ""]⟩ =
      .ok (⟨1, ""⟩, ⟨.opened, none,
        [.write (flsiCmd 1), .write (sndtCmd 1 "*IDN?"), .sleep WRITE_DELAY,
         .write (ninpCmd 1), .sleep WRITE_DELAY, .read "0",
         .write (rawnCmd 1 0), .sleep WRITE_DELAY, .read ""], []⟩) := rfl

/-- C6 amended: binding a module handle never fails on empty or malformed
identification data; the identity is extracted by the fixed
protocol-defined offset — the reply's characters from index 33 on, commas
replaced by spaces, the empty string when the reply is shorter — and is
cached on the handle. -/
theorem module_bind_extracts_id (p : Int) (idv : Option String) (log : List Action)
    (c r : String) (rest : List String) (k : Int)
    (hc : pyStrip c = c) (hk : pyInt c = some k) (hr : pyStrip r = r) :
    SIM_Module.init p ⟨.opened, idv, log, c :: r :: rest⟩ =
      .ok (⟨p, pyReplaceChar ',' ' ' (pySliceFrom 33 r)⟩,
        ⟨.opened, idv, log ++ queryPortTrace p "*IDN?" c r k, rest⟩) := by
  simp only [SIM_Module.init, queryPort_run p "*IDN?" idv log c r rest k hc hk, hr]

/-- Witness for C6 amended: a 44-character identification reply whose
characters from offset 33 read `SIM922,s100`; the cached identity is
`SIM922 s100`. -/
theorem module_bind_extracts_id_witness :
    pyStrip "44" = "44" ∧ pyInt "44" = some 44 ∧
    pyStrip "AAAAAAAAAAAAAAAAAAAAAAAAAAAAAAAAASIM922,s100" =
      "AAAAAAAAAAAAAAAAAAAAAAAAAAAAAAAAASIM922,s100" ∧
    pyReplaceChar ',' ' '
      (pySliceFrom 33 "AAAAAAAAAAAAAAAAAAAAAAAAAAAAAAAAASIM922,s100") = "SIM922 s100" ∧
    SIM_Module.init 1
        ⟨.opened, none, [], ["44", "AAAAAAAAAAAAAAAAAAAAAAAAAAAAAAAAASIM922,s100"]⟩ =
      .ok (⟨1, pyReplaceChar ',' ' '
          (pySliceFrom 33 "AAAAAAAAAAAAAAAAAAAAAAAAAAAAAAAAASIM922,s100")⟩,
        ⟨.opened, none,
          [] ++ queryPortTrace 1 "*IDN?" "44"
            "AAAAAAAAAAAAAAAAAAAAAAAAAAAAAAAAASIM922,s100" 44,
          []⟩) :=
  ⟨rfl, rfl, rfl, rfl,
   module_bind_extracts_id 1 none [] "44" "AAAAAAAAAAAAAAAAAAAAAAAAAAAAAAAAASIM922,s100"
     [] 44 rfl rfl rfl⟩

/-- C7: a failed transport open yields a simulation-mode connection
(instrument absent, identity absent) without propagating the error; a
failed identification probe (open succeeded, no reply) likewise closes the
session and yields simulation mode with no identity; and no subsequent
operation re-attempts a real connection — every operation leaves the
instrument handle absent. -/
theorem init_open_failure_yields_simulation :
    SIM900_api.init .fail = ⟨.absent, none, [], []⟩ ∧
    SIM900_api.init (.success []) =
      ⟨.absent, none, [.write "FLSH", .write "*IDN?", .sleep WRITE_DELAY, .close], []⟩ ∧
    ∀ (idv : Option String) (log : List Action) (replies : List String)
      (p : Int) (msg : String) (nb : Option Int),
      (resultState (SIM900_api.write msg ⟨.absent, idv, log, replies⟩)).instrument = .absent ∧
      (resultState (SIM900_api.read ⟨.absent, idv, log, replies⟩)).instrument = .absent ∧
      (resultState (SIM900_api.query msg ⟨.absent, idv, log, replies⟩)).instrument = .absent ∧
      (resultState (SIM900_api.writePort p msg ⟨.absent, idv, log, replies⟩)).instrument = .absent ∧
      (resultState (SIM900_api.readPort p nb ⟨.absent, idv, log, replies⟩)).instrument = .absent ∧
      (resultState (SIM900_api.queryPort p msg nb ⟨.absent, idv, log, replies⟩)).instrument = .absent ∧
      (resultState (SIM900_api.inWaiting p ⟨.absent, idv, log, replies⟩)).instrument = .absent ∧
      (resultState (SIM900_api.flush nb ⟨.absent, idv, log, replies⟩)).instrument = .absent ∧
      (resultState (SIM900_api.scanPorts ⟨.absent, idv, log, replies⟩)).instrument = .absent ∧
      (resultState (SIM900_api.close ⟨.absent, idv, log, replies⟩)).instrument = .absent := by
  refine ⟨rfl, rfl, ?_⟩
  intro idv log replies p msg nb
  refine ⟨rfl, rfl, rfl, rfl, ?_, rfl, rfl, ?_, rfl, rfl⟩
  · cases nb <;> rfl
  · cases nb <;> rfl

/-- C8: `scanPorts` probes each of ports 1 through 8 exactly once, in
order, with no retries — its transport trace is exactly the concatenation
of the eight per-port probe traces in port order — and returns the
8-element sequence indexed by port number whose entry at a responsive port
is the identity field of that port's reply and at an empty port is the
explicit empty marker `none`. -/
theorem scanPorts_one_pass (ds : List PortDesc) (idv : Option String) (log : List Action)
    (rest : List String) (hlen : ds.length = 8) (hv : ∀ d ∈ ds, d.Valid) :
    SIM900_api.scanPorts ⟨.opened, idv, log, (ds.map PortDesc.replies).flatten ++ rest⟩ =
      .ok (ds.map PortDesc.entry,
        ⟨.opened, idv,
          log ++ (List.zipWith PortDesc.trace [1, 2, 3, 4, 5, 6, 7, 8] ds).flatten, rest⟩) ∧
    (ds.map PortDesc.entry).length = 8 ∧
    (∀ (j : Nat) (d : PortDesc), ds[j]? = some d →
      (ds.map PortDesc.entry)[j]? = some d.entry) := by
  refine ⟨scanAux_spec ds [1, 2, 3, 4, 5, 6, 7, 8] idv log rest (by simp [hlen]) hv, ?_, ?_⟩
  · simp [hlen]
  · intro j d h
    rw [List.getElem?_map, h]
    rfl

/-- Witness for C8: the specification's scenario with modules at ports 1
and 7 and all other ports empty yields non-empty identities exactly at the
first and seventh entries. -/
theorem scanPorts_one_pass_witness :
    scanExample.length = 8 ∧ (∀ d ∈ scanExample, d.Valid) ∧
    scanExample.map PortDesc.entry =
      [some "SIM922", none, none, none, none, none, some "SIM970", none] ∧
    SIM900_api.scanPorts
        ⟨.opened, none, [], (scanExample.map PortDesc.replies).flatten ++ []⟩ =
      .ok (scanExample.map PortDesc.entry,
        ⟨.opened, none,
          [] ++ (List.zipWith PortDesc.trace [1, 2, 3, 4, 5, 6, 7, 8] scanExample).flatten,
          []⟩) :=
  ⟨rfl, by decide, rfl, (scanPorts_one_pass scanExample none [] [] rfl (by decide)).1⟩

/-- C9: closing an open connection moves the handle to the closed state,
and afterwards every operation through the connection or through any bound
module handle fails with the distinct closed-session error
(InvalidSession), never returning the simulation-mode neutral values. -/
theorem closed_connection_ops_fail (idv : Option String) (log : List Action)
    (replies : List String) :
    SIM900_api.close ⟨.opened, idv, log, replies⟩ =
      .ok ((), ⟨.closed, idv, log ++ [.close], replies⟩) ∧
    ∀ (p : Int) (msg : String) (nb : Option Int) (m : SIM_Module),
      SIM900_api.write msg ⟨.closed, idv, log, replies⟩ =
        .error (.invalidSession, ⟨.closed, idv, log, replies⟩) ∧
      SIM900_api.read ⟨.closed, idv, log, replies⟩ =
        .error (.invalidSession, ⟨.closed, idv, log, replies⟩) ∧
      SIM900_api.query msg ⟨.closed, idv, log, replies⟩ =
        .error (.invalidSession, ⟨.closed, idv, log, replies⟩) ∧
      SIM900_api.writePort p msg ⟨.closed, idv, log, replies⟩ =
        .error (.invalidSession, ⟨.closed, idv, log, replies⟩) ∧
      SIM900_api.readPort p nb ⟨.closed, idv, log, replies⟩ =
        .error (.invalidSession, ⟨.closed, idv, log, replies⟩) ∧
      SIM900_api.queryPort p msg nb ⟨.closed, idv, log, replies⟩ =
        .error (.invalidSession, ⟨.closed, idv, log, replies⟩) ∧
      SIM900_api.inWaiting p ⟨.closed, idv, log, replies⟩ =
        .error (.invalidSession, ⟨.closed, idv, log, replies⟩) ∧
      SIM900_api.flush nb ⟨.closed, idv, log, replies⟩ =
        .error (.invalidSession, ⟨.closed, idv, log, replies⟩) ∧
      SIM900_api.scanPorts ⟨.closed, idv, log, replies⟩ =
        .error (.invalidSession, ⟨.closed, idv, log, replies⟩) ∧
      SIM_Module.write m msg ⟨.closed, idv, log, replies⟩ =
        .error (.invalidSession, ⟨.closed, idv, log, replies⟩) ∧
      SIM_Module.read m nb ⟨.closed, idv, log, replies⟩ =
        .error (.invalidSession, ⟨.closed, idv, log, replies⟩) ∧
      SIM_Module.query m msg nb ⟨.closed, idv, log, replies⟩ =
        .error (.invalidSession, ⟨.closed, idv, log, replies⟩) ∧
      SIM_Module.init p ⟨.closed, idv, log, replies⟩ =
        .error (.invalidSession, ⟨.closed, idv, log, replies⟩) := by
  refine ⟨rfl, ?_⟩
  intro p msg nb m
  refine ⟨rfl, rfl, rfl, rfl, ?_, rfl, rfl, ?_, rfl, rfl, ?_, rfl, rfl⟩
  · cases nb <;> rfl
  · cases nb <;> rfl
  · cases nb <;> rfl

/-- C10: `queryPort(p, msg, n)` ignores the supplied byte count — it equals
`queryPort(p, msg)` for every n, because the source calls `readPort(port)`
with no count — so the byte-count query `NINP? p` is issued on every
successful `queryPort` run regardless of the caller-supplied value; and the
module handle's `query(msg, n)` likewise drops n, delegating to
`queryPort(self.port, msg)`. -/
theorem queryPort_ignores_nbytes (p : Int) (msg : String) (n : Int) (s : SIMState)
    (m : SIM_Module) (nb : Option Int) :
    SIM900_api.queryPort p msg (some n) s = SIM900_api.queryPort p msg none s ∧
    SIM_Module.query m msg nb s = SIM900_api.queryPort m.port msg none s ∧
    ∀ (idv : Option String) (log : List Action) (c r : String) (rest : List String) (k : Int),
      pyStrip c = c → pyInt c = some k →
      Action.write (ninpCmd p) ∈
        (resultState (SIM900_api.queryPort p msg (some n)
          ⟨.opened, idv, log, c :: r :: rest⟩)).log := by
  refine ⟨rfl, rfl, ?_⟩
  intro idv log c r rest k hc hk
  show Action.write (ninpCmd p) ∈
    (resultState (SIM900_api.queryPort p msg none ⟨.opened, idv, log, c :: r :: rest⟩)).log
  rw [queryPort_run p msg idv log c r rest k hc hk]
  simp [resultState, queryPortTrace]

/-- Witness for C10: an explicit byte count of 99 yields the same run as no
byte count, and the `NINP? 4` byte-count query still appears in its log. -/
theorem queryPort_ignores_nbytes_witness :
    SIM900_api.queryPort 4 "TVAL? 0" (some 99) ⟨.opened, none, [], ["7", "3.5"]⟩ =
      SIM900_api.queryPort 4 "TVAL? 0" none ⟨.opened, none, [], ["7", "3.5"]⟩ ∧
    Action.write (ninpCmd 4) ∈
      (resultState (SIM900_api.queryPort 4 "TVAL? 0" (some 99)
        ⟨.opened, none, [], ["7", "3.5"]⟩)).log :=
  ⟨(queryPort_ignores_nbytes 4 "TVAL? 0" 99 ⟨.opened, none, [], ["7", "3.5"]⟩ ⟨4, ""⟩ none).1,
   (queryPort_ignores_nbytes 4 "TVAL? 0" 99 ⟨.opened, none, [], ["7", "3.5"]⟩ ⟨4, ""⟩ none).2.2
     none [] "7" "3.5" [] 7 rfl rfl⟩

end SIM900Spec
